import Mathlib

/-!
Verification development for the coordinated activity handler of the swfsm
repository (src/activity/interceptors.go).

The Go code has three parts:
  * `FuncInterceptor` — four optional hook functions with no-op defaults;
  * `heartbeat` — a goroutine that records heartbeats on a fixed interval,
    classifies failures, and may emit one cancellation signal on a channel;
  * `coordinate` — the main loop: `Start`, `signalStart`, spawn heartbeat,
    then a select loop over the cancel channel and a min-interval ticker.

The embedding is oracle-driven: each component is a pure function over the
list of events it would observe (ticker fires with the service response or
handler result attached, channel receives, the stop signal), returning its
outcome together with the trace of calls it performed.  Channel sends use
rendezvous semantics: a send with no possible receiver does not complete,
which the embedding records as a `stuck` outcome.
-/

namespace Swfsm

/-- Constant `TaskGone` from interceptors.go: the substring of the aws error
message that identifies the "task gone" heartbeat fault. -/
def TaskGone : String := "Unknown activity"

/-- Modelled from the spec: `ErrorTypeUnknownResourceFault` is defined
elsewhere in the repository (not under src/); it names the service's
"resource gone" fault code, a specific named fault distinguishable from all
other errors. -/
def ErrorTypeUnknownResourceFault : String := "UnknownResourceFault"

/-- Go `error` values as the coordination code observes them: an aws service
error carrying a code and a message (the `awserr.Error` type assertion
succeeds), a plain error (the assertion fails), or the
`ActivityTaskCanceledError` marker value that the heartbeat monitor sends on
the cancel channel when the service requested cancellation (the marker type
is defined elsewhere in the repository; only its identity matters here). -/
inductive Err where
  | awsFault (code message : String)
  | plain (msg : String)
  | activityTaskCanceled
  deriving DecidableEq, Repr

/-- Embedding of Go `strings.Contains`: the pattern occurs as a contiguous
substring of `s`. -/
def strContains (s pat : String) : Bool :=
  decide (pat.toList <:+: s.toList)

/-- Classification at interceptors.go line 106: the error is an
`awserr.Error` whose code is `ErrorTypeUnknownResourceFault` and whose
message contains the substring `TaskGone`. -/
def isTaskGone : Err → Bool
  | .awsFault code message =>
      code == ErrorTypeUnknownResourceFault && strContains message TaskGone
  | .plain _ => false
  | .activityTaskCanceled => false

/-- Response of one `RecordActivityTaskHeartbeat` call: either a failure
with a Go error, or a status whose `CancelRequested` field is a *bool —
possibly a nil pointer, hence `Option Bool`. -/
inductive HbResp where
  | fail (e : Err)
  | ok (cancelRequested : Option Bool)
  deriving DecidableEq, Repr

/-- One observation of the heartbeat monitor's select: either the heartbeat
ticker fired and the service call produced the given response, or the stop
channel became readable (it was closed by the coordinator). -/
inductive HbEvent where
  | beat (resp : HbResp)
  | stop
  deriving DecidableEq, Repr

/-- How a run of the heartbeat monitor ended: it sent a cause on the cancel
channel and returned; it observed stop and returned without emitting; the
event oracle ran out while it was still looping; or it hit the nil-pointer
dereference of `*status.CancelRequested`. -/
inductive HbOutcome where
  | emitted (cause : Option Err)
  | stopped
  | ranOut
  | panicked
  deriving DecidableEq, Repr

/-- Embedding of `heartbeat` (interceptors.go lines 97-124).  Returns the
outcome together with the list of values the monitor sent on the cancel
channel, in order.  The branches mirror the source: a failing call that
classifies as task-gone sends `nil` and returns; any other failure is logged
and the loop continues; a successful call dereferences `*status.CancelRequested`
(panicking if the pointer is nil), sends `ActivityTaskCanceledError{}` and
returns when it is true, and continues otherwise; the stop case returns
without sending. -/
def heartbeatRun : List HbEvent → HbOutcome × List (Option Err)
  | [] => (.ranOut, [])
  | .stop :: _ => (.stopped, [])
  | .beat (.fail e) :: rest =>
      if isTaskGone e then
        (.emitted none, [none])
      else
        heartbeatRun rest
  | .beat (.ok none) :: _ => (.panicked, [])
  | .beat (.ok (some true)) :: _ =>
      (.emitted (some .activityTaskCanceled), [some .activityTaskCanceled])
  | .beat (.ok (some false)) :: rest => heartbeatRun rest

/-- One result of `handler.Tick(activityTask, input)`: the continue flag,
the `interface{}` result (`none` embeds Go nil) and the error. -/
structure TickOutcome (Res : Type) where
  cont : Bool
  res : Option Res
  err : Option Err
  deriving DecidableEq, Repr

/-- One observation of the coordinator's select (interceptors.go line 144):
either the cancel channel delivered a cause, or the min-interval ticker
fired.  A ticker fire carries the oracle for the `handler.Tick` call made in
that iteration and for the `signalUpdate` call, should one be made. -/
inductive CoEvent (Res : Type) where
  | cancelSig (cause : Option Err)
  | tickFire (t : TickOutcome Res) (sigErr : Option Err)
  deriving DecidableEq, Repr

/-- Observable actions of the coordinator, in program order: the calls it
makes (`handler.Start`, `signalStart`, spawning the heartbeat goroutine,
`handler.Tick`, `signalUpdate`, `handler.Cancel`), its own send on the
cancel channel at line 159, and the deferred `close(stopHeartbeating)`. -/
inductive CoTraceEv (Res : Type) where
  | startCall
  | signalStartCall (payload : Option Res)
  | spawnHeartbeat
  | tickCall
  | signalUpdateCall (r : Res)
  | cancelCall
  | coordCancelSend (e : Err)
  | closeStop
  deriving DecidableEq, Repr

/-- Outcome of a coordinator run.  `completed`/`failed` embed the
`return res, err` of the tick branch split on whether the error is nil;
`canceled` embeds `return nil, cause` of the cancel branch.  `running` means
the event oracle ran out while the loop would continue.  `stuck` means the
goroutine blocked forever: the send `cancel <- err` at line 159 is on an
unbuffered channel whose only receiver is this same goroutine, so it can
never complete. -/
inductive CoOutcome (Res : Type) where
  | completed (res : Option Res)
  | failed (e : Err)
  | canceled (cause : Option Err)
  | running
  | stuck
  deriving DecidableEq, Repr

/-- An outcome of one of the three terminal shapes (the function returned). -/
def CoOutcome.isTerminal {Res : Type} : CoOutcome Res → Bool
  | .completed _ => true
  | .failed _ => true
  | .canceled _ => true
  | .running => false
  | .stuck => false

/-- Embedding of the select loop of `coordinate` (interceptors.go lines
143-165).  `cancelErr` is the oracle for the `handler.Cancel` call; the
source only logs it, and indeed it does not influence the result.  Receiving
a cause invokes `handler.Cancel` and returns `nil, cause`; a ticker fire
invokes `handler.Tick`; `!cont` returns `res, err` immediately; otherwise a
non-nil result is forwarded through `signalUpdate`, whose failure makes the
goroutine send the error on its own cancel channel — an unbuffered
rendezvous with no other receiver, so the run is stuck.  Every genuine
return appends the deferred `closeStop`; a run that is still looping or
stuck has not executed the defer. -/
def coordLoop {Res : Type} (cancelErr : Option Err) :
    List (CoEvent Res) → CoOutcome Res × List (CoTraceEv Res)
  | [] => (.running, [])
  | .cancelSig cause :: _ =>
      (.canceled cause, [.cancelCall, .closeStop])
  | .tickFire t sigErr :: rest =>
      if t.cont then
        match t.res with
        | none =>
            let k := coordLoop cancelErr rest
            (k.1, .tickCall :: k.2)
        | some r =>
            match sigErr with
            | some e =>
                (.stuck, [.tickCall, .signalUpdateCall r, .coordCancelSend e])
            | none =>
                let k := coordLoop cancelErr rest
                (k.1, .tickCall :: .signalUpdateCall r :: k.2)
      else
        match t.err with
        | none => (.completed t.res, [.tickCall, .closeStop])
        | some e => (.failed e, [.tickCall, .closeStop])

/-- Embedding of `coordinate` (interceptors.go lines 126-165).
`startUpdate`/`startErr` are the two results of `handler.Start`;
`signalStartErr` the result of `signalStart`.  A `Start` error returns
`nil, err` before any channel or goroutine exists; a `signalStart` error
likewise; otherwise the heartbeat goroutine is spawned and the select loop
runs over the event oracle. -/
def coordinate {Res : Type} (startUpdate : Option Res) (startErr : Option Err)
    (signalStartErr : Option Err) (cancelErr : Option Err)
    (events : List (CoEvent Res)) : CoOutcome Res × List (CoTraceEv Res) :=
  match startErr with
  | some e => (.failed e, [.startCall])
  | none =>
      match signalStartErr with
      | some e => (.failed e, [.startCall, .signalStartCall startUpdate])
      | none =>
          let k := coordLoop cancelErr events
          (k.1, .startCall :: .signalStartCall startUpdate :: .spawnHeartbeat :: k.2)

/-- Results forwarded by `signalUpdate` calls, in trace order. -/
def signalUpdates {Res : Type} (tr : List (CoTraceEv Res)) : List Res :=
  tr.filterMap fun ev =>
    match ev with
    | .signalUpdateCall r => some r
    | _ => none

/-- Number of `handler.Cancel` invocations in a trace. -/
def countCancelCalls {Res : Type} [DecidableEq Res] (tr : List (CoTraceEv Res)) : Nat :=
  (tr.filter fun ev => ev == .cancelCall).length

/-- Number of `handler.Tick` invocations in a trace. -/
def countTickCalls {Res : Type} [DecidableEq Res] (tr : List (CoTraceEv Res)) : Nat :=
  (tr.filter fun ev => ev == .tickCall).length

/-- Number of executions of the deferred `close(stopHeartbeating)`. -/
def countCloseStop {Res : Type} [DecidableEq Res] (tr : List (CoTraceEv Res)) : Nat :=
  (tr.filter fun ev => ev == .closeStop).length

/-- Number of ticker fires in an event oracle. -/
def countTickFires {Res : Type} (evs : List (CoEvent Res)) : Nat :=
  (evs.filter fun ev =>
    match ev with
    | .tickFire _ _ => true
    | _ => false).length

/-- Modelled from the spec: the minimum-tick-interval timer fires at times
T, 2T, 3T, ... (the Go `time.Ticker` created at line 141 with period
`tickMinInterval`); `handler.Tick` can only be invoked when it fires. -/
def tickerFireTime (T k : Nat) : Nat := (k + 1) * T

/-- Embedding of `FuncInterceptor` (interceptors.go lines 16-21): four
optional hook functions.  `Task` stands for `*swf.PollForActivityTaskOutput`,
`Res` for the `interface{}` result, `Eff` for the opaque effect one hook
invocation performs. -/
structure FuncInterceptor (Task Res Eff : Type) where
  BeforeTaskFn : Option (Task → Eff)
  AfterTaskCompleteFn : Option (Task → Res → Eff)
  AfterTaskFailedFn : Option (Task → Err → Eff)
  AfterTaskCanceledFn : Option (Task → String → Eff)

/-- Embedding of the method `BeforeTask` (lines 24-28): runs `BeforeTaskFn`
if not nil.  The returned list holds the effects performed, in order. -/
def FuncInterceptor.BeforeTask {Task Res Eff : Type}
    (i : FuncInterceptor Task Res Eff) (activity : Task) : List Eff :=
  match i.BeforeTaskFn with
  | none => []
  | some f => [f activity]

/-- Embedding of the method `AfterTaskComplete` (lines 31-35). -/
def FuncInterceptor.AfterTaskComplete {Task Res Eff : Type}
    (i : FuncInterceptor Task Res Eff) (activity : Task) (result : Res) :
    List Eff :=
  match i.AfterTaskCompleteFn with
  | none => []
  | some f => [f activity result]

/-- Embedding of the method `AfterTaskFailed` (lines 38-42). -/
def FuncInterceptor.AfterTaskFailed {Task Res Eff : Type}
    (i : FuncInterceptor Task Res Eff) (activity : Task) (e : Err) :
    List Eff :=
  match i.AfterTaskFailedFn with
  | none => []
  | some f => [f activity e]

/-- Embedding of the method `AfterTaskCanceled` (lines 45-49). -/
def FuncInterceptor.AfterTaskCanceled {Task Res Eff : Type}
    (i : FuncInterceptor Task Res Eff) (activity : Task) (details : String) :
    List Eff :=
  match i.AfterTaskCanceledFn with
  | none => []
  | some f => [f activity details]

/-- A monitor run that exhausted a silent event prefix continues exactly as
the run of the remaining events: such a prefix neither stops the monitor
nor makes it emit. -/
theorem heartbeatRun_append_of_ranOut (pre l : List HbEvent)
    (h : heartbeatRun pre = (.ranOut, [])) :
    heartbeatRun (pre ++ l) = heartbeatRun l := by
  induction pre with
  | nil => simp
  | cons e rest ih =>
      match e with
      | .stop => simp [heartbeatRun] at h
      | .beat (.fail er) =>
          by_cases hg : isTaskGone er
          · simp [heartbeatRun, hg] at h
          · simp only [heartbeatRun, hg, if_neg, List.cons_append,
              Bool.false_eq_true, ite_false] at h ⊢
            exact ih h
      | .beat (.ok none) => simp [heartbeatRun] at h
      | .beat (.ok (some true)) => simp [heartbeatRun] at h
      | .beat (.ok (some false)) =>
          simp only [heartbeatRun, List.cons_append] at h ⊢
          exact ih h

/-- A heartbeat monitor run emits at most one value on the cancel channel:
both emitting branches return immediately after the send. -/
theorem heartbeatRun_emissions_le_one (evs : List HbEvent) :
    (heartbeatRun evs).2.length ≤ 1 := by
  induction evs with
  | nil => simp [heartbeatRun]
  | cons e rest ih =>
      match e with
      | .stop => simp [heartbeatRun]
      | .beat (.fail er) =>
          by_cases hg : isTaskGone er
          · simp [heartbeatRun, hg]
          · simpa only [heartbeatRun, hg, Bool.false_eq_true, ite_false] using ih
      | .beat (.ok none) => simp [heartbeatRun]
      | .beat (.ok (some true)) => simp [heartbeatRun]
      | .beat (.ok (some false)) => simpa only [heartbeatRun] using ih

/-- Claim C1 as stated is false on the code: it says the cause is nil when
the cancellation came from a clean cancel-request, but on a heartbeat
response with the cancel-requested flag set the monitor sends
`ActivityTaskCanceledError{}` (line 116), not nil, and the coordinator
terminates with `Canceled` carrying that non-nil marker. -/
theorem c1_counterexample :
    heartbeatRun [HbEvent.beat (HbResp.ok (some true))]
      = (HbOutcome.emitted (some Err.activityTaskCanceled),
         [some Err.activityTaskCanceled])
    ∧ coordLoop none ([CoEvent.cancelSig (some Err.activityTaskCanceled)] :
          List (CoEvent Nat))
      = (CoOutcome.canceled (some Err.activityTaskCanceled),
         [CoTraceEv.cancelCall, CoTraceEv.closeStop])
    ∧ some Err.activityTaskCanceled ≠ (none : Option Err) :=
  ⟨rfl, rfl, by decide⟩

/-- Claim C1 (amended): the cause mapping is the opposite of the claim.  A
task-gone heartbeat fault makes the monitor emit nil (so the outcome is
`Canceled` with no error payload, as the claim's task-gone half says), a
clean cancel-request makes it emit the `ActivityTaskCanceledError` marker,
and on receiving a cause the coordinator invokes `Handler.Cancel` exactly
once and terminates with `Canceled(cause)`, for any result of the `Cancel`
call. -/
theorem c1_amended {Res : Type} (pre rest : List HbEvent) (e : Err)
    (cErr cause : Option Err) (evs : List (CoEvent Res))
    (hpre : heartbeatRun pre = (.ranOut, []))
    (hg : isTaskGone e = true) :
    heartbeatRun (pre ++ HbEvent.beat (HbResp.fail e) :: rest)
      = (HbOutcome.emitted none, [none])
    ∧ heartbeatRun (pre ++ HbEvent.beat (HbResp.ok (some true)) :: rest)
      = (HbOutcome.emitted (some Err.activityTaskCanceled),
         [some Err.activityTaskCanceled])
    ∧ coordLoop cErr (CoEvent.cancelSig cause :: evs)
      = (CoOutcome.canceled cause, [CoTraceEv.cancelCall, CoTraceEv.closeStop]) := by
  refine ⟨?_, ?_, rfl⟩
  · rw [heartbeatRun_append_of_ranOut pre _ hpre]
    simp [heartbeatRun, hg]
  · rw [heartbeatRun_append_of_ranOut pre _ hpre]
    rfl

/-- Witness for the amended C1: a silent beat, then either the task-gone
fault (cause nil) or the cancel-requested flag (cause is the marker); a
coordinator that receives a cause cancels with it. -/
theorem c1_amended_witness :
    heartbeatRun ([HbEvent.beat (HbResp.ok (some false))] ++
        HbEvent.beat (HbResp.fail
          (Err.awsFault ErrorTypeUnknownResourceFault "Unknown activity foo")) :: [])
      = (HbOutcome.emitted none, [none])
    ∧ heartbeatRun ([HbEvent.beat (HbResp.ok (some false))] ++
        HbEvent.beat (HbResp.ok (some true)) :: [])
      = (HbOutcome.emitted (some Err.activityTaskCanceled),
         [some Err.activityTaskCanceled])
    ∧ coordLoop none (CoEvent.cancelSig none :: ([] : List (CoEvent Nat)))
      = (CoOutcome.canceled none, [CoTraceEv.cancelCall, CoTraceEv.closeStop]) :=
  c1_amended [HbEvent.beat (HbResp.ok (some false))] []
    (Err.awsFault ErrorTypeUnknownResourceFault "Unknown activity foo")
    none none ([] : List (CoEvent Nat)) rfl (by decide)

/-- Claim C2 is right about the intent but the code cannot do it: when
`signalUpdate` fails on a non-nil continuing result, line 159 sends the
error on the `cancel` channel.  That channel is unbuffered and its only
receiver is the very goroutine performing the send, so the send never
completes: the coordinator blocks forever, `Handler.Cancel` is never
invoked, the deferred `close(stopHeartbeating)` never runs, and no outcome
is produced — contradicting the comment at line 160 ("go pick up the cancel
message") and the spec. -/
theorem c2_signal_update_failure_deadlock :
    coordinate (some (7 : Nat)) none none none
        [CoEvent.tickFire ⟨true, some 5, none⟩ (some (Err.plain "update failed"))]
      = (CoOutcome.stuck,
         [CoTraceEv.startCall, CoTraceEv.signalStartCall (some 7),
          CoTraceEv.spawnHeartbeat, CoTraceEv.tickCall,
          CoTraceEv.signalUpdateCall 5,
          CoTraceEv.coordCancelSend (Err.plain "update failed")])
    ∧ countCancelCalls (coordinate (some (7 : Nat)) none none none
        [CoEvent.tickFire ⟨true, some 5, none⟩ (some (Err.plain "update failed"))]).2
      = 0
    ∧ (coordinate (some (7 : Nat)) none none none
        [CoEvent.tickFire ⟨true, some 5, none⟩
          (some (Err.plain "update failed"))]).1.isTerminal = false :=
  ⟨rfl, by decide, rfl⟩

/-- Claim C3: a Tick returning continue=false ends the session at once with
`Completed(result)` when its error is nil and `Failed(error)` otherwise, the
final result is never forwarded through `signalUpdate`, and `signalUpdate`
is called exactly once per non-nil result of a continuing Tick, in Tick
order. -/
theorem c3_tick_sequence {Res : Type} (cErr : Option Err)
    (pre : List (TickOutcome Res)) (final : TickOutcome Res)
    (hpre : ∀ t ∈ pre, t.cont = true) (hfin : final.cont = false) :
    (coordLoop cErr
        (pre.map (fun t => CoEvent.tickFire t none) ++
         [CoEvent.tickFire final none])).1
      = (match final.err with
         | none => CoOutcome.completed final.res
         | some e => CoOutcome.failed e)
    ∧ signalUpdates
        (coordLoop cErr
          (pre.map (fun t => CoEvent.tickFire t none) ++
           [CoEvent.tickFire final none])).2
      = pre.filterMap TickOutcome.res := by
  induction pre with
  | nil =>
      cases hf : final.err with
      | none =>
          simp [coordLoop, hfin, hf, signalUpdates]
      | some e =>
          simp [coordLoop, hfin, hf, signalUpdates]
  | cons t ts ih =>
      have ht : t.cont = true := hpre t (by simp)
      have ihs := ih (fun x hx => hpre x (by simp [hx]))
      cases hr : t.res with
      | none =>
          simp only [List.map_cons, List.cons_append, coordLoop, ht, hr,
            if_true, List.filterMap_cons, signalUpdates] at ihs ⊢
          simpa [signalUpdates] using ihs
      | some r =>
          simp only [List.map_cons, List.cons_append, coordLoop, ht, hr,
            if_true, List.filterMap_cons, signalUpdates] at ihs ⊢
          simpa [signalUpdates] using ihs

/-- Witness for C3: the spec's own scenario, Tick sequence
[(true,resA,nil),(true,resB,nil),(false,resC,nil)]: two signalUpdate calls
in order resA, resB, and outcome Completed(resC). -/
theorem c3_tick_sequence_witness :
    (coordLoop none
        [CoEvent.tickFire (⟨true, some "resA", none⟩ : TickOutcome String) none,
         CoEvent.tickFire ⟨true, some "resB", none⟩ none,
         CoEvent.tickFire ⟨false, some "resC", none⟩ none]).1
      = CoOutcome.completed (some "resC")
    ∧ signalUpdates
        (coordLoop none
          [CoEvent.tickFire (⟨true, some "resA", none⟩ : TickOutcome String) none,
           CoEvent.tickFire ⟨true, some "resB", none⟩ none,
           CoEvent.tickFire ⟨false, some "resC", none⟩ none]).2
      = ["resA", "resB"] :=
  c3_tick_sequence none
    [⟨true, some "resA", none⟩, ⟨true, some "resB", none⟩]
    ⟨false, some "resC", none⟩ (by decide) rfl

/-- Claim C4: a `Start` error, or a `signalStart` error after a successful
`Start`, terminates the session with `Failed` carrying that error before the
heartbeat goroutine is spawned and before any `Tick` or `Cancel` call; when
both succeed, `signalStart` is passed the value `Start` returned and
precedes the whole select loop, hence the first `Tick`. -/
theorem c4_setup_failure {Res : Type} [DecidableEq Res] (u : Option Res)
    (e : Err) (sErr cErr : Option Err) (evs : List (CoEvent Res)) :
    coordinate u (some e) sErr cErr evs = (CoOutcome.failed e, [CoTraceEv.startCall])
    ∧ countTickCalls (coordinate u (some e) sErr cErr evs).2 = 0
    ∧ countCancelCalls (coordinate u (some e) sErr cErr evs).2 = 0
    ∧ CoTraceEv.spawnHeartbeat ∉ (coordinate u (some e) sErr cErr evs).2
    ∧ coordinate u none (some e) cErr evs
        = (CoOutcome.failed e, [CoTraceEv.startCall, CoTraceEv.signalStartCall u])
    ∧ countTickCalls (coordinate u none (some e) cErr evs).2 = 0
    ∧ countCancelCalls (coordinate u none (some e) cErr evs).2 = 0
    ∧ CoTraceEv.spawnHeartbeat ∉ (coordinate u none (some e) cErr evs).2
    ∧ coordinate u none none cErr evs
        = ((coordLoop cErr evs).1,
           CoTraceEv.startCall :: CoTraceEv.signalStartCall u ::
             CoTraceEv.spawnHeartbeat :: (coordLoop cErr evs).2) := by
  refine ⟨rfl, ?_, ?_, ?_, rfl, ?_, ?_, ?_, rfl⟩
  · simp [coordinate, countTickCalls]
  · simp [coordinate, countCancelCalls]
  · simp [coordinate]
  · simp [coordinate, countTickCalls]
  · simp [coordinate, countCancelCalls]
  · simp [coordinate]

/-- Claim C5: heartbeat failures other than the task-gone fault are
recovered locally — after any number of consecutive transient failures the
monitor has emitted nothing on the cancel channel and is still running, and
it then behaves exactly as it would on the remaining events. -/
theorem c5_transient_failures (errs : List Err) (rest : List HbEvent)
    (h : ∀ e ∈ errs, isTaskGone e = false) :
    heartbeatRun (errs.map (fun e => HbEvent.beat (HbResp.fail e)))
      = (HbOutcome.ranOut, [])
    ∧ heartbeatRun (errs.map (fun e => HbEvent.beat (HbResp.fail e)) ++ rest)
      = heartbeatRun rest := by
  have hmain : heartbeatRun (errs.map (fun e => HbEvent.beat (HbResp.fail e)))
      = (HbOutcome.ranOut, []) := by
    induction errs with
    | nil => rfl
    | cons e es ih =>
        have he : isTaskGone e = false := h e (by simp)
        simp only [List.map_cons, heartbeatRun, he, Bool.false_eq_true, ite_false]
        exact ih (fun x hx => h x (by simp [hx]))
  exact ⟨hmain, heartbeatRun_append_of_ranOut _ rest hmain⟩

/-- Witness for C5: two transient failures (a plain error and a throttling
aws fault) leave the monitor running with no emission, and it still honors a
later stop. -/
theorem c5_transient_failures_witness :
    heartbeatRun ([Err.plain "timeout",
        Err.awsFault "ThrottlingException" "rate exceeded"].map
          (fun e => HbEvent.beat (HbResp.fail e)))
      = (HbOutcome.ranOut, [])
    ∧ heartbeatRun (([Err.plain "timeout",
        Err.awsFault "ThrottlingException" "rate exceeded"].map
          (fun e => HbEvent.beat (HbResp.fail e))) ++ [HbEvent.stop])
      = heartbeatRun [HbEvent.stop] :=
  c5_transient_failures
    [Err.plain "timeout", Err.awsFault "ThrottlingException" "rate exceeded"]
    [HbEvent.stop] (by decide)

/-- Claim C6 says the cancellation channel is written by exactly one side,
the Heartbeat Monitor.  False: at line 159 the coordinator itself writes the
`signalUpdate` error to the cancel channel.  Concretely, this run's trace
contains a coordinator-side send on that channel. -/
theorem c6_counterexample :
    CoTraceEv.coordCancelSend (Err.plain "update signal boom")
      ∈ (coordinate (some (1 : Nat)) none none none
          [CoEvent.tickFire ⟨true, some 2, none⟩
            (some (Err.plain "update signal boom"))]).2 := by
  decide

/-- Claim C6 (amended): the Heartbeat Monitor emits at most one signal on
the cancellation channel per session and stops itself immediately after
emitting, and it never writes to the channel after observing the stop
signal; but the channel is not written by the monitor alone — the
coordinator also writes to it when a `signalUpdate` call fails. -/
theorem c6_amended {Res : Type} (evs pre post : List HbEvent) (r : Res)
    (e : Err) (cErr : Option Err) (rest : List (CoEvent Res))
    (hpre : heartbeatRun pre = (.ranOut, [])) :
    (heartbeatRun evs).2.length ≤ 1
    ∧ heartbeatRun (pre ++ HbEvent.stop :: post) = (HbOutcome.stopped, [])
    ∧ CoTraceEv.coordCancelSend e
        ∈ (coordLoop cErr
            (CoEvent.tickFire ⟨true, some r, none⟩ (some e) :: rest)).2 := by
  refine ⟨heartbeatRun_emissions_le_one evs, ?_, ?_⟩
  · rw [heartbeatRun_append_of_ranOut pre _ hpre]
    rfl
  · simp [coordLoop]

/-- Witness for the amended C6: a monitor that sees a cancel-request emits
once; a monitor that sees stop after a silent beat emits nothing regardless
of later events; a coordinator whose signalUpdate fails writes the channel
itself. -/
theorem c6_amended_witness :
    (heartbeatRun [HbEvent.beat (HbResp.ok (some true))]).2.length ≤ 1
    ∧ heartbeatRun ([HbEvent.beat (HbResp.ok (some false))] ++
        HbEvent.stop :: [HbEvent.beat (HbResp.ok (some true))])
      = (HbOutcome.stopped, [])
    ∧ CoTraceEv.coordCancelSend (Err.plain "sig err")
        ∈ (coordLoop none
            (CoEvent.tickFire (⟨true, some (3 : Nat), none⟩ : TickOutcome Nat)
              (some (Err.plain "sig err")) :: [])).2 :=
  c6_amended [HbEvent.beat (HbResp.ok (some true))]
    [HbEvent.beat (HbResp.ok (some false))]
    [HbEvent.beat (HbResp.ok (some true))] (3 : Nat) (Err.plain "sig err")
    none ([] : List (CoEvent Nat)) rfl

/-- A select loop that reaches a genuine return (a terminal outcome) has run
the deferred `close(stopHeartbeating)` exactly once, as the last action. -/
theorem coordLoop_terminal_closeStop {Res : Type} [DecidableEq Res]
    (cErr : Option Err) (evs : List (CoEvent Res))
    (h : (coordLoop cErr evs).1.isTerminal = true) :
    countCloseStop (coordLoop cErr evs).2 = 1
    ∧ ∃ tr0, (coordLoop cErr evs).2 = tr0 ++ [CoTraceEv.closeStop] := by
  induction evs with
  | nil => simp [coordLoop, CoOutcome.isTerminal] at h
  | cons ev rest ih =>
      match ev with
      | .cancelSig cause =>
          refine ⟨by simp [coordLoop, countCloseStop], [CoTraceEv.cancelCall], rfl⟩
      | .tickFire t sigErr =>
          by_cases hc : t.cont
          · cases hr : t.res with
            | none =>
                have hh : (coordLoop cErr rest).1.isTerminal = true := by
                  simpa only [coordLoop, hc, hr, if_true] using h
                obtain ⟨h1, tr0, h2⟩ := ih hh
                refine ⟨?_, CoTraceEv.tickCall :: tr0, ?_⟩
                · simpa only [coordLoop, hc, hr, if_true, countCloseStop,
                    List.filter_cons, show ((CoTraceEv.tickCall : CoTraceEv Res)
                      == CoTraceEv.closeStop) = false from rfl,
                    Bool.false_eq_true, if_false] using h1
                · simp only [coordLoop, hc, hr, if_true, h2, List.cons_append]
            | some r =>
                cases sigErr with
                | some e =>
                    exfalso
                    simp only [coordLoop, hc, hr, if_true,
                      CoOutcome.isTerminal] at h
                    exact Bool.noConfusion h
                | none =>
                    have hh : (coordLoop cErr rest).1.isTerminal = true := by
                      simpa only [coordLoop, hc, hr, if_true] using h
                    obtain ⟨h1, tr0, h2⟩ := ih hh
                    refine ⟨?_, CoTraceEv.tickCall ::
                      CoTraceEv.signalUpdateCall r :: tr0, ?_⟩
                    · simpa only [coordLoop, hc, hr, if_true, countCloseStop,
                        List.filter_cons, show ((CoTraceEv.tickCall : CoTraceEv Res)
                          == CoTraceEv.closeStop) = false from rfl,
                        show (CoTraceEv.signalUpdateCall r
                          == CoTraceEv.closeStop) = false from rfl,
                        Bool.false_eq_true, if_false] using h1
                    · simp only [coordLoop, hc, hr, if_true, h2, List.cons_append]
          · cases he : t.err with
            | none =>
                refine ⟨by simp [coordLoop, hc, he, countCloseStop],
                  [CoTraceEv.tickCall], by simp [coordLoop, hc, he]⟩
            | some e =>
                refine ⟨by simp [coordLoop, hc, he, countCloseStop],
                  [CoTraceEv.tickCall], by simp [coordLoop, hc, he]⟩

/-- Claim C7: whenever the adapter produces a terminal outcome (it does so
exactly once, at the single return of the select loop, covering the
tick-complete, tick-fail and both cancellation exit paths), the deferred
`close(stopHeartbeating)` has been executed exactly once, as the last action
before returning — no heartbeat goroutine is leaked. -/
theorem c7_stop_signal_released {Res : Type} [DecidableEq Res]
    (u : Option Res) (cErr : Option Err) (evs : List (CoEvent Res))
    (h : (coordinate u none none cErr evs).1.isTerminal = true) :
    countCloseStop (coordinate u none none cErr evs).2 = 1
    ∧ ∃ tr0, (coordinate u none none cErr evs).2
        = tr0 ++ [CoTraceEv.closeStop] := by
  have hh : (coordLoop cErr evs).1.isTerminal = true := h
  obtain ⟨h1, tr0, h2⟩ := coordLoop_terminal_closeStop cErr evs hh
  constructor
  · show countCloseStop (CoTraceEv.startCall :: CoTraceEv.signalStartCall u ::
      CoTraceEv.spawnHeartbeat :: (coordLoop cErr evs).2) = 1
    simpa only [countCloseStop, List.filter_cons,
      show ((CoTraceEv.startCall : CoTraceEv Res) == CoTraceEv.closeStop)
        = false from rfl,
      show (CoTraceEv.signalStartCall u == CoTraceEv.closeStop)
        = false from rfl,
      show ((CoTraceEv.spawnHeartbeat : CoTraceEv Res) == CoTraceEv.closeStop)
        = false from rfl,
      Bool.false_eq_true, if_false] using h1
  · exact ⟨CoTraceEv.startCall :: CoTraceEv.signalStartCall u ::
      CoTraceEv.spawnHeartbeat :: tr0, by
        show CoTraceEv.startCall :: CoTraceEv.signalStartCall u ::
          CoTraceEv.spawnHeartbeat :: (coordLoop cErr evs).2 = _
        simp [h2]⟩

/-- Witness for C7: a session that completes on its first tick closes the
stop channel exactly once, as its final action. -/
theorem c7_stop_signal_released_witness :
    countCloseStop (coordinate (some (0 : Nat)) none none none
        [CoEvent.tickFire ⟨false, some 4, none⟩ none]).2 = 1
    ∧ ∃ tr0, (coordinate (some (0 : Nat)) none none none
        [CoEvent.tickFire ⟨false, some 4, none⟩ none]).2
      = tr0 ++ [CoTraceEv.closeStop] :=
  c7_stop_signal_released (some 0) none
    [CoEvent.tickFire ⟨false, some 4, none⟩ none] rfl

/-- Each ticker fire accounts for at most one `handler.Tick` invocation:
the select loop never calls Tick except when consuming a ticker fire. -/
theorem countTickCalls_le_countTickFires {Res : Type} [DecidableEq Res]
    (cErr : Option Err) (evs : List (CoEvent Res)) :
    countTickCalls (coordLoop cErr evs).2 ≤ countTickFires evs := by
  induction evs with
  | nil => simp [coordLoop, countTickCalls, countTickFires]
  | cons ev rest ih =>
      match ev with
      | .cancelSig cause =>
          simp only [coordLoop, countTickCalls, countTickFires, List.filter_cons]
          simp [countTickCalls, countTickFires]
      | .tickFire t sigErr =>
          by_cases hc : t.cont
          · cases hr : t.res with
            | none =>
                simp only [coordLoop, hc, hr, if_true, countTickCalls,
                  countTickFires, List.filter_cons] at ih ⊢
                simp only [show ((CoTraceEv.tickCall : CoTraceEv Res)
                    == CoTraceEv.tickCall) = true from rfl, if_true,
                  List.length_cons]
                omega
            | some r =>
                cases sigErr with
                | some e =>
                    simp [coordLoop, hc, hr, countTickCalls, countTickFires,
                      List.filter_cons]
                | none =>
                    simp only [coordLoop, hc, hr, if_true, countTickCalls,
                      countTickFires, List.filter_cons] at ih ⊢
                    simp only [show ((CoTraceEv.tickCall : CoTraceEv Res)
                        == CoTraceEv.tickCall) = true from rfl,
                      show (CoTraceEv.signalUpdateCall r
                        == CoTraceEv.tickCall) = false from rfl,
                      Bool.false_eq_true, if_true, if_false, List.length_cons]
                    omega
          · cases he : t.err with
            | none =>
                simp [coordLoop, hc, he, countTickCalls, countTickFires,
                  List.filter_cons]
            | some e =>
                simp [coordLoop, hc, he, countTickCalls, countTickFires,
                  List.filter_cons]

/-- Claim C8: with minimum tick interval T > 0, `handler.Tick` is invoked at
most once per T.  The interval timer fires at times T, 2T, 3T, ..., so two
distinct fires lie at least T apart, and the select loop performs at most
one Tick call per fire it consumes: back-to-back fast ticks are throttled by
the timer, never invoked faster. -/
theorem c8_min_tick_interval {Res : Type} [DecidableEq Res] (T j k : Nat)
    (hT : 0 < T) (hjk : j ≠ k) (cErr : Option Err)
    (evs : List (CoEvent Res)) :
    (tickerFireTime T j + T ≤ tickerFireTime T k
      ∨ tickerFireTime T k + T ≤ tickerFireTime T j)
    ∧ countTickCalls (coordLoop cErr evs).2 ≤ countTickFires evs := by
  refine ⟨?_, countTickCalls_le_countTickFires cErr evs⟩
  unfold tickerFireTime
  rcases Nat.lt_or_ge j k with hlt | hge
  · left
    have hjk2 : j + 2 ≤ k + 1 := by omega
    calc (j + 1) * T + T = (j + 2) * T := by ring
      _ ≤ (k + 1) * T := Nat.mul_le_mul_right T hjk2
  · right
    have hlt : k < j := lt_of_le_of_ne hge (Ne.symm hjk)
    have hjk2 : k + 2 ≤ j + 1 := by omega
    calc (k + 1) * T + T = (k + 2) * T := by ring
      _ ≤ (j + 1) * T := Nat.mul_le_mul_right T hjk2

/-- Witness for C8: with T = 50 the first two fires are 50 apart, and a
concrete two-fire run makes at most two Tick calls. -/
theorem c8_min_tick_interval_witness :
    (tickerFireTime 50 0 + 50 ≤ tickerFireTime 50 1
      ∨ tickerFireTime 50 1 + 50 ≤ tickerFireTime 50 0)
    ∧ countTickCalls (coordLoop none
        [CoEvent.tickFire (⟨true, none, none⟩ : TickOutcome Nat) none,
         CoEvent.tickFire ⟨false, some 9, none⟩ none]).2
      ≤ countTickFires
          [CoEvent.tickFire (⟨true, none, none⟩ : TickOutcome Nat) none,
           CoEvent.tickFire ⟨false, some 9, none⟩ none] :=
  c8_min_tick_interval 50 0 1 (by decide) (by decide) none
    [CoEvent.tickFire ⟨true, none, none⟩ none,
     CoEvent.tickFire ⟨false, some 9, none⟩ none]

/-- Claim C9: each of the four `FuncInterceptor` methods is a no-op when its
function field is nil, and invokes that function exactly once with exactly
the arguments the method received when it is set. -/
theorem c9_func_interceptor {Task Res Eff : Type}
    (i : FuncInterceptor Task Res Eff) (t : Task) (res : Res) (e : Err)
    (d : String) :
    (i.BeforeTaskFn = none → i.BeforeTask t = [])
    ∧ (∀ f, i.BeforeTaskFn = some f → i.BeforeTask t = [f t])
    ∧ (i.AfterTaskCompleteFn = none → i.AfterTaskComplete t res = [])
    ∧ (∀ f, i.AfterTaskCompleteFn = some f →
        i.AfterTaskComplete t res = [f t res])
    ∧ (i.AfterTaskFailedFn = none → i.AfterTaskFailed t e = [])
    ∧ (∀ f, i.AfterTaskFailedFn = some f → i.AfterTaskFailed t e = [f t e])
    ∧ (i.AfterTaskCanceledFn = none → i.AfterTaskCanceled t d = [])
    ∧ (∀ f, i.AfterTaskCanceledFn = some f →
        i.AfterTaskCanceled t d = [f t d]) := by
  refine ⟨fun h => ?_, fun f h => ?_, fun h => ?_, fun f h => ?_,
    fun h => ?_, fun f h => ?_, fun h => ?_, fun f h => ?_⟩
  · simp [FuncInterceptor.BeforeTask, h]
  · simp [FuncInterceptor.BeforeTask, h]
  · simp [FuncInterceptor.AfterTaskComplete, h]
  · simp [FuncInterceptor.AfterTaskComplete, h]
  · simp [FuncInterceptor.AfterTaskFailed, h]
  · simp [FuncInterceptor.AfterTaskFailed, h]
  · simp [FuncInterceptor.AfterTaskCanceled, h]
  · simp [FuncInterceptor.AfterTaskCanceled, h]

/-- Witness for C9: an interceptor with only `BeforeTaskFn` and
`AfterTaskCanceledFn` set runs exactly those hooks on exactly its
arguments; the unset hooks are no-ops. -/
theorem c9_func_interceptor_witness :
    FuncInterceptor.BeforeTask
        (⟨some (fun n => n + 1), none, none, some (fun _ s => s.length)⟩ :
          FuncInterceptor Nat Nat Nat) 3 = [4]
    ∧ FuncInterceptor.AfterTaskComplete
        (⟨some (fun n => n + 1), none, none, some (fun _ s => s.length)⟩ :
          FuncInterceptor Nat Nat Nat) 3 9 = []
    ∧ FuncInterceptor.AfterTaskFailed
        (⟨some (fun n => n + 1), none, none, some (fun _ s => s.length)⟩ :
          FuncInterceptor Nat Nat Nat) 3 (Err.plain "eee") = []
    ∧ FuncInterceptor.AfterTaskCanceled
        (⟨some (fun n => n + 1), none, none, some (fun _ s => s.length)⟩ :
          FuncInterceptor Nat Nat Nat) 3 "gone" = [4] :=
  ⟨(c9_func_interceptor
      (⟨some (fun n => n + 1), none, none, some (fun _ s => s.length)⟩ :
        FuncInterceptor Nat Nat Nat) 3 9 (Err.plain "eee") "gone").2.1
      (fun n => n + 1) rfl,
   (c9_func_interceptor
      (⟨some (fun n => n + 1), none, none, some (fun _ s => s.length)⟩ :
        FuncInterceptor Nat Nat Nat) 3 9 (Err.plain "eee") "gone").2.2.1 rfl,
   (c9_func_interceptor
      (⟨some (fun n => n + 1), none, none, some (fun _ s => s.length)⟩ :
        FuncInterceptor Nat Nat Nat) 3 9 (Err.plain "eee") "gone").2.2.2.2.1 rfl,
   (c9_func_interceptor
      (⟨some (fun n => n + 1), none, none, some (fun _ s => s.length)⟩ :
        FuncInterceptor Nat Nat Nat) 3 9 (Err.plain "eee") "gone").2.2.2.2.2.2.2
      (fun _ s => s.length) rfl⟩

/-- A monitor whose successful heartbeat responses all carry a non-nil
CancelRequested pointer never hits the nil dereference. -/
theorem heartbeatRun_not_panicked : ∀ evs : List HbEvent,
    (∀ resp, HbEvent.beat resp ∈ evs → resp ≠ HbResp.ok none) →
    (heartbeatRun evs).1 ≠ HbOutcome.panicked
  | [], _ => by simp [heartbeatRun]
  | .stop :: es, _ => by simp [heartbeatRun]
  | .beat (.fail er) :: es, h => by
      by_cases hg : isTaskGone er
      · simp [heartbeatRun, hg]
      · simp only [heartbeatRun, hg, Bool.false_eq_true, ite_false]
        exact heartbeatRun_not_panicked es (fun r hr => h r (by simp [hr]))
  | .beat (.ok none) :: es, h => absurd rfl (h (HbResp.ok none) (by simp))
  | .beat (.ok (some true)) :: es, _ => by simp [heartbeatRun]
  | .beat (.ok (some false)) :: es, h =>
      heartbeatRun_not_panicked es (fun r hr => h r (by simp [hr]))

/-- Claim C10: the monitor dereferences `*status.CancelRequested`
unconditionally on every successful heartbeat call; it is panic-free
whenever every successful response carries a non-nil flag, and a nil flag in
a successful response makes it panic on the spot. -/
theorem c10_cancel_requested_deref (evs rest : List HbEvent)
    (hsafe : ∀ resp, HbEvent.beat resp ∈ evs → resp ≠ HbResp.ok none) :
    (heartbeatRun evs).1 ≠ HbOutcome.panicked
    ∧ heartbeatRun (HbEvent.beat (HbResp.ok none) :: rest)
      = (HbOutcome.panicked, []) :=
  ⟨heartbeatRun_not_panicked evs hsafe, rfl⟩

/-- Witness for C10: a monitor seeing only flagged responses does not
panic; one seeing a successful response with a nil flag panics at once. -/
theorem c10_cancel_requested_deref_witness :
    (heartbeatRun [HbEvent.beat (HbResp.ok (some false)),
        HbEvent.beat (HbResp.ok (some true))]).1 ≠ HbOutcome.panicked
    ∧ heartbeatRun (HbEvent.beat (HbResp.ok none) ::
        [HbEvent.beat (HbResp.ok (some true))])
      = (HbOutcome.panicked, []) :=
  c10_cancel_requested_deref
    [HbEvent.beat (HbResp.ok (some false)), HbEvent.beat (HbResp.ok (some true))]
    [HbEvent.beat (HbResp.ok (some true))] (by
      intro resp hmem
      simp only [List.mem_cons, List.not_mem_nil, or_false,
        HbEvent.beat.injEq] at hmem
      rcases hmem with h | h <;> subst h <;> decide)

end Swfsm
